import Mathlib

/-!
Verification of the tubearchivist ingestion / refresh core against its
natural-language specification.

The Python source under home/src is shallowly embedded below:
pure computations become Lean functions, Elasticsearch / Redis reads and
writes become explicit data passed in and returned, exceptions become
Except / abort flags.  Machine integers are modelled as Nat (all the
quantities involved are non-negative Python ints of unbounded precision).
-/

namespace TA

/-! ## Refresh scheduler (home/src/index/reindex.py, ReindexOutdated) -/

/-- Embeds `ReindexOutdated._get_daily_should`:
`daily_should = int((total_hits // self.interval + 1) * self.MULTIPLY)`
with `MULTIPLY = 1.2`, then capped to 9999 when `>= 10000`.
The float multiplication by 1.2 is modelled exactly as `* 6 / 5` with
truncating (floor) division; for every argument the Python float product
lies strictly within half an ulp of the exact rational value at the
magnitudes reachable here, so `int(...)` agrees with the exact floor. -/
def getDailyShould (total_hits interval : Nat) : Nat :=
  let daily_should := (total_hits / interval + 1) * 6 / 5
  if daily_should ≥ 10000 then 9999 else daily_should

/-- Follows the spec formula verbatim (refinement target, NOT from the
source): `daily_quota = min(9999, ceil(active_count / interval_days * 1.2))`,
with exact rational arithmetic: `ceil (n * 6 / (5 * d))`. -/
def specDailyQuota (active_count interval_days : Nat) : Nat :=
  min 9999 ((active_count * 6 + (5 * interval_days - 1)) / (5 * interval_days))

/-- Document as returned by the per-type Elasticsearch index: its id, its
active flag and its last-refreshed epoch timestamp (the fields used by
`ReindexOutdated._get_outdated_ids`). -/
structure EsDoc where
  id : String
  active : Bool
  refresh : Nat
  deriving DecidableEq, Repr

/-- Embeds the Elasticsearch query issued by
`ReindexOutdated._get_outdated_ids`: keep active documents whose
`refresh_key` is `lte` `now - interval * 24 * 60 * 60`, sort ascending on
the refresh timestamp, return at most `daily_should` (`"size"`) hits.
Elasticsearch leaves tie order unspecified; a stable merge sort is one
faithful refinement of it. -/
def selectOutdated (docs : List EsDoc) (now interval daily_should : Nat) :
    List EsDoc :=
  ((docs.filter (fun d => d.active && decide (d.refresh ≤ now - interval * 24 * 60 * 60))).mergeSort
    (fun a b => decide (a.refresh ≤ b.refresh))).take daily_should

/-- Embeds `ReindexOutdated._get_outdated_ids`: the ids of the selected
documents, oldest-refreshed first. -/
def getOutdatedIds (docs : List EsDoc) (now interval daily_should : Nat) :
    List String :=
  (selectOutdated docs now interval daily_should).map (·.id)

/-! ## Cycle pre-flight (Reindex.cookie_invalid / Reindex.reindex_all) -/

/-- Embeds `Reindex.cookie_invalid`.  Its docstring reads "return true if
cookie is enabled and invalid".  The body is
`if not config["downloads"]["cookie_import"]: return False` followed by
`valid = CookieHandler(self.config).validate(); return valid`.
`validate_result` is the value returned by `CookieHandler.validate()`
(True exactly when the configured cookie validates successfully, as the
local variable name `valid` records); the function returns it unchanged. -/
def cookie_invalid (cookie_import : Bool) (validate_result : Bool) : Bool :=
  if !cookie_import then false else validate_result

/-- Embeds the pre-flight guard of `Reindex.reindex_all`: the cycle goes on
to drain the queues iff `cookie_invalid` returned False. -/
def reindexAllProceeds (cookie_import : Bool) (validate_result : Bool) : Bool :=
  !cookie_invalid cookie_import validate_result

/-! ## Intake progress notifier (home/src/download/queue.py, PendingList) -/

/-- Embeds the guard of the console message in `PendingList._notify_add`:
`if idx + 1 % 25 == 0:`.  Lean's `%` binds tighter than `+` exactly as
Python's does, so this definition parses identically to the source line:
`idx + (1 % 25) == 0`. -/
def notifyEvery25Cond (idx : Nat) : Bool :=
  idx + 1 % 25 == 0

/-! ## Download-queue intake (home/src/download/queue.py) -/

/-- Document of the `ta_download` index as consumed by
`PendingIndex.get_download`: its video id and its status string. -/
structure DownloadDoc where
  youtube_id : String
  status : String
  deriving DecidableEq, Repr

/-- Embeds the `to_skip` accumulation of `PendingIndex.get_download`
followed by `PendingIndex.get_indexed`: every id present in `ta_download`
(whatever its status) is appended, then every indexed video id. -/
def buildToSkip (downloads : List DownloadDoc) (indexed_ids : List String) :
    List String :=
  downloads.map (·.youtube_id) ++ indexed_ids

/-- Embeds the `all_pending` filter of `PendingIndex.get_download`:
documents whose status is exactly "pending". -/
def allPending (downloads : List DownloadDoc) : List DownloadDoc :=
  downloads.filter (fun d => d.status == "pending")

/-- Embeds the `all_ignored` filter of `PendingIndex.get_download`:
documents whose status is exactly "ignore". -/
def allIgnored (downloads : List DownloadDoc) : List DownloadDoc :=
  downloads.filter (fun d => d.status == "ignore")

/-- Embeds `PendingList._add_video`: append `url` to `missing_videos` iff
it is in neither `missing_videos` nor `to_skip`, otherwise leave the list
unchanged (the video is skipped with a log line). -/
def addVideo (missing to_skip : List String) (url : String) : List String :=
  if url ∉ missing ∧ url ∉ to_skip then missing ++ [url] else missing

/-- Entry of the ordered request list handed to
`PendingList.parse_url_list`: its `type` string, its `url`, and the member
video ids that the external collaborator
(`ChannelSubscription.get_last_youtube_videos` for a channel,
`YoutubePlaylist.build_json` for a playlist) resolves the url to, carried
here as data. -/
structure UrlEntry where
  type : String
  url : String
  resolved : List String
  deriving DecidableEq, Repr

/-- Embeds `PendingList._process_entry`: a "video" entry runs `_add_video`
on its url; a "channel" or "playlist" entry runs `_add_video` on each
resolved member id in order; any other type raises
`ValueError(f"invalid url_type: ...")`, modelled as `Except.error`. -/
def processEntry (to_skip missing : List String) (e : UrlEntry) :
    Except String (List String) :=
  if e.type = "video" then
    .ok (addVideo missing to_skip e.url)
  else if e.type = "channel" then
    .ok (e.resolved.foldl (fun m v => addVideo m to_skip v) missing)
  else if e.type = "playlist" then
    .ok (e.resolved.foldl (fun m v => addVideo m to_skip v) missing)
  else
    .error ("invalid url_type: " ++ e.url)

/-- Value produced by `processEntry` on an entry of valid type (the
`.ok` payload): used to state what a partial pass has accumulated. -/
def entryStep (to_skip missing : List String) (e : UrlEntry) : List String :=
  if e.type = "video" then addVideo missing to_skip e.url
  else e.resolved.foldl (fun m v => addVideo m to_skip v) missing

/-- Embeds the loop of `PendingList.parse_url_list` over the request list.
Returns the final `missing_videos` accumulator and whether the pass was
aborted by the `ValueError`: the exception propagates, so entries after
the offending one are not processed, while additions made by earlier
entries stay in `self.missing_videos`. -/
def parseUrlLoop (to_skip : List String) :
    List UrlEntry → List String → List String × Bool
  | [], missing => (missing, false)
  | e :: rest, missing =>
    match processEntry to_skip missing e with
    | .ok m2 => parseUrlLoop to_skip rest m2
    | .error _ => (missing, true)

/-! ## Reindex progress tracker (reindex.py, ReindexProgress) -/

/-- Embeds `ReindexBase.REINDEX_CONFIG` restricted to the fields
`ReindexProgress` uses: request type to `queue_name`. -/
def REINDEX_QUEUES : List (String × String) :=
  [("video", "reindex:ta_video"),
   ("channel", "reindex:ta_channel"),
   ("playlist", "reindex:ta_playlist")]

/-- Embeds `ReindexProgress._get_queue_name`: with no request type
(Python-falsy, modelled `none`) it returns the pair `("all", "all")`; with
a known type it returns that type's queue name; an unknown type raises
`ValueError`, modelled as `none` result. -/
def getQueueName (request_type : Option String) :
    Option (String × String) :=
  match request_type with
  | none => some ("all", "all")
  | some t => (REINDEX_QUEUES.lookup t).map (fun q => (q, t))

/-- State of the Redis queues: contents of the queue stored under each
queue name. -/
def RedisQueues : Type := String → List String

/-- Embeds `RedisQueue(queue_name).in_queue(request_id)`: membership of
the id in the named queue's contents. -/
def inQueue (queues : RedisQueues) (queue_name request_id : String) : Bool :=
  request_id ∈ queues queue_name

/-- Embeds the `request_id` branch of `ReindexProgress._get_state` wired
through `get_progress`: the queue name comes from `_get_queue_name`, and
the reported state is `in_queue` on that queue (`none` when
`_get_queue_name` raised). -/
def progressStateForId (queues : RedisQueues)
    (request_type : Option String) (request_id : String) : Option Bool :=
  (getQueueName request_type).map (fun qn => inQueue queues qn.1 request_id)

/-! ## Per-item refresh state machine (reindex.py, Reindex) -/

/-- Indexed video document restricted to the fields
`Reindex._reindex_single_video_call` reads or writes.  `player` and
`channel` are JSON objects (key-value maps), `playlist` and `subtitles`
are optional JSON arrays (`none` models an absent key, matching
`json_data.get(...)` returning `None`). -/
structure VideoDoc where
  player : List (String × String)
  date_downloaded : Nat
  channel : List (String × String)
  playlist : Option (List String)
  subtitles : Option (List String)
  title : String
  duration : Nat
  vid_thumb_url : String
  active : Bool
  deriving DecidableEq, Repr

/-- Python truthiness of an optional JSON array: `None` and `[]` are
falsy. -/
def listTruthy (l : Option (List String)) : Bool :=
  match l with
  | none => false
  | some xs => !xs.isEmpty

/-- Modelled from the spec: `YoutubeVideo.deactivate` (home/src/index,
not under src/) marks the entity inactive via a partial update — the
active flag becomes false and the document stays in the store. -/
def deactivateVideo (doc : VideoDoc) : VideoDoc :=
  { doc with active := false }

/-- Embeds `Reindex._reindex_single_video_call` as a document transform.
`old` is the record read back from Elasticsearch, `fresh` is the document
`video.build_json()` builds from remote metadata (`none` when
`video.youtube_meta` is empty).  The snapshot of `player`,
`date_downloaded` and `channel` is written back over the fresh document
unconditionally; the `playlist` snapshot only when truthy; on missing
remote metadata the video is deactivated and nothing else is written. -/
def reindexSingleVideoCall (old : VideoDoc) (fresh : Option VideoDoc) :
    VideoDoc :=
  match fresh with
  | none => deactivateVideo old
  | some f =>
    let f1 := { f with
      player := old.player
      date_downloaded := old.date_downloaded
      channel := old.channel }
    if listTruthy old.playlist then { f1 with playlist := old.playlist }
    else f1

/-- Indexed channel document restricted to the fields
`Reindex._reindex_single_channel` reads or writes.  `channel_overwrites`
is an optional JSON object; `none` models an absent key (the
`json_data.get("channel_overwrites", False)` default). -/
structure ChannelDoc where
  channel_subscribed : Bool
  channel_overwrites : Option (List (String × String))
  channel_name : String
  channel_active : Bool
  deriving DecidableEq, Repr

/-- Python truthiness of the overwrite map: the `.get` default `False`
(modelled `none`) and an empty dict are falsy. -/
def overwritesTruthy (o : Option (List (String × String))) : Bool :=
  match o with
  | none => false
  | some m => !m.isEmpty

/-- Modelled from the spec: `YoutubeChannel.deactivate` (not under src/)
marks the channel inactive via a partial update, keeping the document. -/
def deactivateChannel (doc : ChannelDoc) : ChannelDoc :=
  { doc with channel_active := false }

/-- Embeds `Reindex._reindex_single_channel` as a document transform.
`fresh` is the document `channel.get_from_youtube()` builds from remote
metadata (`none` when the channel is gone upstream); remote metadata
never carries the operator-local overwrite map, so a genuine fresh
document has `channel_overwrites = none`, which the theorems take as a
hypothesis rather than baking it into the type.  `channel_subscribed` is
restored unconditionally; `channel_overwrites` only when truthy
(`if overwrites:`). -/
def reindexSingleChannel (old : ChannelDoc) (fresh : Option ChannelDoc) :
    ChannelDoc :=
  match fresh with
  | none => deactivateChannel old
  | some f =>
    let f1 := { f with channel_subscribed := old.channel_subscribed }
    if overwritesTruthy old.channel_overwrites then
      { f1 with channel_overwrites := old.channel_overwrites }
    else f1

/-- Indexed playlist document restricted to the fields
`Reindex._reindex_single_playlist` reads or writes. -/
structure PlaylistDoc where
  playlist_subscribed : Bool
  playlist_name : String
  playlist_active : Bool
  deriving DecidableEq, Repr

/-- Modelled from the spec: `YoutubePlaylist.deactivate` (not under src/)
marks the playlist inactive via a partial update, keeping the document. -/
def deactivatePlaylist (doc : PlaylistDoc) : PlaylistDoc :=
  { doc with playlist_active := false }

/-- Embeds `Reindex._reindex_single_playlist` as a document transform:
snapshot `playlist_subscribed`, rebuild from remote (`fresh`, `none` when
`playlist.build_json(scrape=True)` left no data), deactivate on missing
data, otherwise restore the subscription flag and persist. -/
def reindexSinglePlaylist (old : PlaylistDoc) (fresh : Option PlaylistDoc) :
    PlaylistDoc :=
  match fresh with
  | none => deactivatePlaylist old
  | some f => { f with playlist_subscribed := old.playlist_subscribed }

/-- Applies a per-document refresh transform to the one store entry keyed
by `target`: this is the only store mutation the three refresh functions
perform (partial update on deactivate, full document put otherwise) —
none of them issues a delete. -/
def storeRefresh {α : Type} (store : List (String × α)) (target : String)
    (transform : α → α) : List (String × α) :=
  store.map (fun p => if p.1 = target then (p.1, transform p.2) else p)

/-! ## Self-healing wrapper (Reindex._reindex_single_video, ChannelUrlFixer) -/

/-- Events observable while `Reindex._reindex_single_video` handles one
id: an attempt of `_reindex_single_video_call`, the construction
`ChannelUrlFixer(youtube_id, self.config)` (its `__init__` only stores
its arguments), and a call of `ChannelUrlFixer.run` (the routine that
actually relocates media and persists the corrected path). -/
inductive RefreshEvent where
  | callAttempt
  | fixerInit
  | fixerRun
  deriving DecidableEq, Repr

/-- Embeds `Reindex._reindex_single_video` for one id:
`try: call()` and on `FileNotFoundError` the handler evaluates
`ChannelUrlFixer(youtube_id, self.config)` — constructing the object
without calling `run()` — and retries `call()` once.  `first_fails` and
`second_fails` say whether the respective attempt raises
`FileNotFoundError`.  Returns the event trace and whether the exception
escaped the wrapper. -/
def reindexSingleVideoTrace (first_fails second_fails : Bool) :
    List RefreshEvent × Bool :=
  if first_fails then
    ([.callAttempt, .fixerInit, .callAttempt], second_fails)
  else
    ([.callAttempt], false)

/-- Embeds the per-type drain loop of `Reindex.reindex_all` /
`Reindex.reindex_index`: pop ids in order and refresh each;
`reindex_all` wraps the loop in no try block, so an exception escaping
`_reindex_single_video` aborts the whole drain.  `raises id` says whether
refreshing `id` lets the exception escape.  Returns the ids actually
processed and whether the drain aborted. -/
def drainLoop (raises : String → Bool) :
    List String → List String × Bool
  | [] => ([], false)
  | id :: rest =>
    if raises id then ([id], true)
    else
      let r := drainLoop raises rest
      (id :: r.1, r.2)

/-! ## Comment refresh (home/src/index/comments.py, Comments) -/

/-- Raw comment as returned by the extractor, restricted to the fields
`Comments.clean_comment` reads (the formatted `comment_time_text` derived
from the timestamp by strftime is kept out of the model; no claim touches
it). -/
structure RawComment where
  id : String
  text : String
  timestamp : Nat
  like_count : Nat
  is_favorited : Bool
  author : String
  author_id : String
  author_thumbnail : String
  author_is_uploader : Bool
  parent : String
  deriving DecidableEq, Repr

/-- Indexed comment entry as produced by `Comments.clean_comment`. -/
structure CleanComment where
  comment_id : String
  comment_text : String
  comment_timestamp : Nat
  comment_likecount : Nat
  comment_is_favorited : Bool
  comment_author : String
  comment_author_id : String
  comment_author_thumbnail : String
  comment_author_is_uploader : Bool
  comment_parent : String
  deriving DecidableEq, Repr

/-- Embeds `Comments.clean_comment` (minus the strftime-derived time
text): field renaming plus the non-breaking-space strip on the text. -/
def cleanComment (c : RawComment) : CleanComment :=
  { comment_id := c.id
    comment_text := c.text.replace "\u00A0" ""
    comment_timestamp := c.timestamp
    comment_likecount := c.like_count
    comment_is_favorited := c.is_favorited
    comment_author := c.author
    comment_author_id := c.author_id
    comment_author_thumbnail := c.author_thumbnail
    comment_author_is_uploader := c.author_is_uploader
    comment_parent := c.parent }

/-- Embeds `Comments.format_comments`: clean each raw comment in order. -/
def formatComments (comments_raw : List RawComment) : List CleanComment :=
  comments_raw.map cleanComment

/-- Embeds the `comments_format` computation of `Comments.build_json`:
`if comments_raw: format_comments(...) else: comments_format = []` —
`extract` returning no comment list (`None`, modelled `none`) or an empty
one is falsy. -/
def buildCommentsFormat (comments_raw : Option (List RawComment)) :
    List CleanComment :=
  match comments_raw with
  | none => []
  | some l => if l.isEmpty then [] else formatComments l

/-- Comment document of the `ta_comment` index as built by
`Comments.build_json`. -/
structure CommentDoc where
  youtube_id : String
  comment_last_refresh : Nat
  comment_channel_id : Option String
  comment_comments : List CleanComment
  deriving DecidableEq, Repr

/-- Embeds `Comments.reindex_comments` as a transform of the stored
`ta_comment/_doc/{id}` document.  `activated` is
`bool(config["downloads"]["comment_max"])`; `comments_raw` and
`channel_id` are what `get_yt_comments` pulled; `stored` is the current
document (`none` when Elasticsearch answers 404).  With comments disabled
or an empty freshly built comment list the function returns before any
write, leaving the store untouched; otherwise it deletes and re-uploads
the freshly built document. -/
def reindexComments (activated : Bool) (youtube_id : String) (now : Nat)
    (comments_raw : Option (List RawComment)) (channel_id : Option String)
    (stored : Option CommentDoc) : Option CommentDoc :=
  if !activated then stored
  else
    let fmt := buildCommentsFormat comments_raw
    if fmt.isEmpty then stored
    else some
      { youtube_id := youtube_id
        comment_last_refresh := now
        comment_channel_id := channel_id
        comment_comments := fmt }

/-! ## Sample inputs used by the witness theorems -/

/-- Sample stale video record. -/
def sampleVideoOld : VideoDoc :=
  { player := [("watched", "true"), ("progress", "10")]
    date_downloaded := 111
    channel := [("channel_id", "c1")]
    playlist := some ["pl1"]
    subtitles := none
    title := "old title"
    duration := 100
    vid_thumb_url := "old.jpg"
    active := true }

/-- Sample freshly pulled video metadata. -/
def sampleVideoFresh : VideoDoc :=
  { player := []
    date_downloaded := 222
    channel := [("channel_id", "c2")]
    playlist := none
    subtitles := none
    title := "new title"
    duration := 101
    vid_thumb_url := "new.jpg"
    active := true }

/-- Sample stale channel record carrying a non-empty overwrite map. -/
def sampleChannelOld : ChannelDoc :=
  { channel_subscribed := true
    channel_overwrites := some [("download_format", "best")]
    channel_name := "old name"
    channel_active := true }

/-- Sample freshly pulled channel metadata (remote metadata carries no
operator overwrite map). -/
def sampleChannelFresh : ChannelDoc :=
  { channel_subscribed := false
    channel_overwrites := none
    channel_name := "new name"
    channel_active := true }

/-- Sample stored comment document with one non-empty comment. -/
def sampleStoredComments : CommentDoc :=
  { youtube_id := "vid"
    comment_last_refresh := 1
    comment_channel_id := some "c1"
    comment_comments :=
      [{ comment_id := "cm1"
         comment_text := "hello"
         comment_timestamp := 7
         comment_likecount := 2
         comment_is_favorited := false
         comment_author := "a"
         comment_author_id := "aid"
         comment_author_thumbnail := "a.jpg"
         comment_author_is_uploader := false
         comment_parent := "root" }] }

/-- Sample Redis state: one video id queued under the video refresh
queue, every other queue empty. -/
def sampleQueues : RedisQueues :=
  fun q => if q = "reindex:ta_video" then ["v1"] else []

/-! ## Theorems -/

/-- Helper: the documents selected by the outdated pass come out sorted
ascending on their last-refreshed timestamp (oldest first). -/
lemma selectOutdated_sorted (docs : List EsDoc) (now interval q : Nat) :
    List.Sorted (fun a b => a.refresh ≤ b.refresh)
      (selectOutdated docs now interval q) := by
  unfold selectOutdated
  apply List.Pairwise.sublist (List.take_sublist _ _)
  have h := @List.sorted_mergeSort EsDoc
    (fun a b : EsDoc => decide (a.refresh ≤ b.refresh))
    (fun a b c hab hbc => by
      simp only [decide_eq_true_eq] at *; omega)
    (fun a b => by
      simp only [Bool.or_eq_true, decide_eq_true_eq]; exact Nat.le_total _ _)
    (docs.filter
      (fun d => d.active && decide (d.refresh ≤ now - interval * 24 * 60 * 60)))
  exact h.imp (by simp)

/-- Helper: the outdated pass returns at most `daily_should` ids. -/
lemma getOutdatedIds_len (docs : List EsDoc) (now interval q : Nat) :
    (getOutdatedIds docs now interval q).length ≤ q := by
  unfold getOutdatedIds selectOutdated
  simp [List.length_take]

/-- Claim C1, corrected.  The daily refresh quota computed by the
outdated-detection pass equals `min 9999 ((n / d + 1) * 6 / 5)` — the
truncated value of `(n // d + 1) * 1.2` capped at 9999 — not the spec's
`min(9999, ceil(n / d * 1.2))`.  A pass over 700 active items with d = 7
may select up to 121 identifiers (not 120), a pass over 1,000,000 active
items with d = 1 is capped at 9999, the pass never returns more ids than
the quota, and the selected documents are ordered oldest-refreshed
first. -/
theorem claim1_amended (n d now q : Nat) (docs : List EsDoc) :
    getDailyShould n d = min 9999 ((n / d + 1) * 6 / 5)
    ∧ getDailyShould 700 7 = 121
    ∧ getDailyShould 1000000 1 = 9999
    ∧ (getOutdatedIds docs now d q).length ≤ q
    ∧ List.Sorted (fun a b => a.refresh ≤ b.refresh)
        (selectOutdated docs now d q) := by
  refine ⟨?_, by decide, by decide, getOutdatedIds_len _ _ _ _,
    selectOutdated_sorted _ _ _ _⟩
  show (if (n / d + 1) * 6 / 5 ≥ 10000 then 9999 else (n / d + 1) * 6 / 5) = _
  split <;> omega

/-- Claim C1, counterexample to the claimed formula: over 700 active
items with a 7-day interval the code computes a quota of 121, while
`min(9999, ceil(700 / 7 * 1.2))` is 120. -/
theorem claim1_counterexample :
    getDailyShould 700 7 ≠ specDailyQuota 700 7
    ∧ getDailyShould 700 7 = 121 ∧ specDailyQuota 700 7 = 120 := by
  decide

/-- Claim C2, code evaluation at the failing input.  With a cookie import
configured and `CookieHandler.validate()` returning False (the credential
fails validation), `cookie_invalid` returns False and `reindex_all`
proceeds to drain the queues; with the credential validating successfully
it returns True and the cycle aborts — the exact opposite of the
function's own docstring and of the claim.  With no cookie configured the
cycle proceeds either way, as claimed. -/
theorem claim2_code_eval :
    cookie_invalid true false = false
    ∧ reindexAllProceeds true false = true
    ∧ cookie_invalid true true = true
    ∧ reindexAllProceeds true true = false
    ∧ reindexAllProceeds false false = true
    ∧ reindexAllProceeds false true = true := by
  decide

/-- Claim C8, counterexample.  The guard `idx + 1 % 25 == 0` is not true
for nearly every index: it is false at index 0, 3, 23, 24 and 49 (in
particular at 24 and 49, where even the intended every-25th cadence would
print). -/
theorem claim8_counterexample :
    notifyEvery25Cond 0 = false
    ∧ notifyEvery25Cond 3 = false
    ∧ notifyEvery25Cond 23 = false
    ∧ notifyEvery25Cond 24 = false
    ∧ notifyEvery25Cond 49 = false := by
  decide

/-- Claim C8, corrected.  Due to operator precedence the condition parses
as `idx + (1 % 25) == 0`, i.e. `idx + 1 == 0`, which is false for every
0-based item index: the every-25th-item console message is never printed
at all. -/
theorem claim8_amended (idx : Nat) : notifyEvery25Cond idx = false := by
  simp [notifyEvery25Cond]

/-- Claim C3, counterexample.  With a video whose refresh raises
`FileNotFoundError` on both attempts and a second video behind it in the
queue, the repair routine `ChannelUrlFixer.run` never appears in the
event trace (only the bare object construction does), the exception
escapes the wrapper, and the drain loop stops without processing the next
queued item. -/
theorem claim3_counterexample :
    RefreshEvent.fixerRun ∉ (reindexSingleVideoTrace true true).1
    ∧ (reindexSingleVideoTrace true true).2 = true
    ∧ drainLoop (fun _ => true) ["vidA", "vidB"] = (["vidA"], true) := by
  decide

/-- Claim C3, corrected.  On `FileNotFoundError` the handler constructs
the `ChannelUrlFixer` object but never invokes its `run` repair routine;
the per-item refresh call is retried exactly once; and when the retry
fails too the exception propagates out of `reindex_all`, so the drain
cycle aborts — the next queued items are not processed. -/
theorem claim3_amended (second_fails : Bool) (raises : String → Bool)
    (id : String) (rest : List String) (h : raises id = true) :
    (reindexSingleVideoTrace true second_fails).1 =
      [RefreshEvent.callAttempt, RefreshEvent.fixerInit,
       RefreshEvent.callAttempt]
    ∧ RefreshEvent.fixerRun ∉ (reindexSingleVideoTrace true second_fails).1
    ∧ (reindexSingleVideoTrace true second_fails).2 = second_fails
    ∧ reindexSingleVideoTrace false second_fails
        = ([RefreshEvent.callAttempt], false)
    ∧ drainLoop raises (id :: rest) = ([id], true) := by
  refine ⟨rfl, ?_, rfl, rfl, ?_⟩
  · show RefreshEvent.fixerRun ∉
      [RefreshEvent.callAttempt, RefreshEvent.fixerInit,
       RefreshEvent.callAttempt]
    decide
  · simp [drainLoop, h]

/-- Witness for the corrected claim C3 at a concrete input. -/
theorem claim3_amended_witness :
    (fun _ : String => true) "vidA" = true
    ∧ drainLoop (fun _ : String => true) ["vidA", "vidB"]
        = (["vidA"], true) :=
  ⟨rfl, (claim3_amended true (fun _ => true) "vidA" ["vidB"] rfl).2.2.2.2⟩

/-- Claim C4, counterexample.  A stored channel document whose overwrite
map is present but empty does not keep it across a refresh: the
truthiness guard `if overwrites:` skips the restore, so the persisted
document carries the fresh pull's absent map instead of the stored empty
one — the overwrite map is not identical before and after. -/
theorem claim4_counterexample :
    (reindexSingleChannel
        { channel_subscribed := true, channel_overwrites := some [],
          channel_name := "chan", channel_active := true }
        (some { channel_subscribed := false, channel_overwrites := none,
                channel_name := "chan", channel_active := true
              })).channel_overwrites
      ≠ ({ channel_subscribed := true, channel_overwrites := some [],
           channel_name := "chan", channel_active := true
         } : ChannelDoc).channel_overwrites := by
  decide

/-- Claim C4, corrected.  For every item refresh that pulls fresh
metadata successfully, the persisted document's player state, archival
timestamp and owning-channel reference equal their pre-refresh values
while title, duration and thumbnail come from the fresh pull; for every
collection refresh the subscription flag is identical before and after,
and so is the overwrite map provided the stored map is absent or
non-empty (a present-but-empty map is dropped; fresh remote metadata
carries no overwrite map). -/
theorem claim4_amended (old f : VideoDoc) (oldc fc : ChannelDoc)
    (hfc : fc.channel_overwrites = none)
    (hov : oldc.channel_overwrites = none ∨
      ∃ m, oldc.channel_overwrites = some m ∧ m ≠ []) :
    (reindexSingleVideoCall old (some f)).player = old.player
    ∧ (reindexSingleVideoCall old (some f)).date_downloaded
        = old.date_downloaded
    ∧ (reindexSingleVideoCall old (some f)).channel = old.channel
    ∧ (reindexSingleVideoCall old (some f)).title = f.title
    ∧ (reindexSingleVideoCall old (some f)).duration = f.duration
    ∧ (reindexSingleVideoCall old (some f)).vid_thumb_url = f.vid_thumb_url
    ∧ (reindexSingleChannel oldc (some fc)).channel_subscribed
        = oldc.channel_subscribed
    ∧ (reindexSingleChannel oldc (some fc)).channel_overwrites
        = oldc.channel_overwrites := by
  refine ⟨?_, ?_, ?_, ?_, ?_, ?_, ?_, ?_⟩ <;>
    simp only [reindexSingleVideoCall, reindexSingleChannel]
  · split <;> rfl
  · split <;> rfl
  · split <;> rfl
  · split <;> rfl
  · split <;> rfl
  · split <;> rfl
  · split <;> rfl
  · rcases hov with h | ⟨m, hm, hne⟩
    · simp [h, hfc, overwritesTruthy]
    · have ht : overwritesTruthy oldc.channel_overwrites = true := by
        rw [hm]
        cases m with
        | nil => exact absurd rfl hne
        | cons a t => rfl
      simp [ht]

/-- Witness for the corrected claim C4 at concrete documents. -/
theorem claim4_amended_witness :
    sampleChannelFresh.channel_overwrites = none
    ∧ (sampleChannelOld.channel_overwrites = none ∨
        ∃ m, sampleChannelOld.channel_overwrites = some m ∧ m ≠ [])
    ∧ ((reindexSingleVideoCall sampleVideoOld (some sampleVideoFresh)).player
          = sampleVideoOld.player
       ∧ (reindexSingleVideoCall sampleVideoOld
            (some sampleVideoFresh)).date_downloaded
          = sampleVideoOld.date_downloaded
       ∧ (reindexSingleVideoCall sampleVideoOld
            (some sampleVideoFresh)).channel = sampleVideoOld.channel
       ∧ (reindexSingleVideoCall sampleVideoOld (some sampleVideoFresh)).title
          = sampleVideoFresh.title
       ∧ (reindexSingleVideoCall sampleVideoOld
            (some sampleVideoFresh)).duration = sampleVideoFresh.duration
       ∧ (reindexSingleVideoCall sampleVideoOld
            (some sampleVideoFresh)).vid_thumb_url
          = sampleVideoFresh.vid_thumb_url
       ∧ (reindexSingleChannel sampleChannelOld
            (some sampleChannelFresh)).channel_subscribed
          = sampleChannelOld.channel_subscribed
       ∧ (reindexSingleChannel sampleChannelOld
            (some sampleChannelFresh)).channel_overwrites
          = sampleChannelOld.channel_overwrites) := by
  have hov : sampleChannelOld.channel_overwrites = none ∨
      ∃ m, sampleChannelOld.channel_overwrites = some m ∧ m ≠ [] :=
    Or.inr ⟨[("download_format", "best")], rfl, by decide⟩
  exact ⟨rfl, hov, claim4_amended sampleVideoOld sampleVideoFresh
    sampleChannelOld sampleChannelFresh rfl hov⟩

/-- Claim C5, confirmed.  An identifier in the deduplication snapshot —
already indexed, or sitting in the pending queue with status pending or
ignore — is never added to the missing list by `_add_video`, and neither
is an identifier already added earlier in the same pass: the list comes
back unchanged. -/
theorem claim5_dedup (downloads : List DownloadDoc)
    (indexed_ids missing : List String) (url : String)
    (h : (∃ e, (e ∈ allPending downloads ∨ e ∈ allIgnored downloads)
            ∧ e.youtube_id = url)
         ∨ url ∈ indexed_ids ∨ url ∈ missing) :
    addVideo missing (buildToSkip downloads indexed_ids) url = missing := by
  unfold addVideo
  rcases h with ⟨e, he, hid⟩ | h | h
  · have hd : e ∈ downloads := by
      rcases he with he | he
      · exact (List.mem_filter.mp he).1
      · exact (List.mem_filter.mp he).1
    have hm : url ∈ buildToSkip downloads indexed_ids := by
      unfold buildToSkip
      apply List.mem_append_left
      rw [← hid]
      exact List.mem_map_of_mem _ hd
    simp [hm]
  · have hm : url ∈ buildToSkip downloads indexed_ids :=
      List.mem_append_right _ h
    simp [hm]
  · simp [h]

/-- Witness for claim C5 at a concrete input. -/
theorem claim5_dedup_witness :
    ((∃ e, (e ∈ allPending [({ youtube_id := "a", status := "pending" } :
              DownloadDoc)]
          ∨ e ∈ allIgnored [({ youtube_id := "a", status := "pending" } :
              DownloadDoc)])
        ∧ e.youtube_id = "a")
      ∨ "a" ∈ ["b"] ∨ "a" ∈ ["c"])
    ∧ addVideo ["c"]
        (buildToSkip [{ youtube_id := "a", status := "pending" }] ["b"]) "a"
      = ["c"] := by
  have h : (∃ e, (e ∈ allPending [({ youtube_id := "a", status := "pending" } :
              DownloadDoc)]
          ∨ e ∈ allIgnored [({ youtube_id := "a", status := "pending" } :
              DownloadDoc)])
        ∧ e.youtube_id = "a")
      ∨ "a" ∈ ["b"] ∨ "a" ∈ (["c"] : List String) :=
    Or.inl ⟨{ youtube_id := "a", status := "pending" },
      Or.inl (by decide), rfl⟩
  exact ⟨h, claim5_dedup _ _ _ _ h⟩

/-- Helper: refreshing one document in a keyed store rewrites the target
entry in place and looks up to the transformed document. -/
lemma lookup_storeRefresh {α : Type} (store : List (String × α))
    (t : String) (f : α → α) :
    (storeRefresh store t f).lookup t = (store.lookup t).map f := by
  induction store with
  | nil => rfl
  | cons p rest ih =>
    obtain ⟨k, v⟩ := p
    by_cases h : k = t
    · subst h
      simp [storeRefresh, List.lookup_cons]
    · have hbeq : (t == k) = false :=
        beq_eq_false_iff_ne.mpr (fun hh => h hh.symm)
      simp only [storeRefresh, List.map_cons, if_neg h]
      rw [List.lookup_cons, List.lookup_cons]
      simp only [hbeq]
      exact ih

/-- Helper: refreshing one document never changes the key set of the
store — no document is deleted or created. -/
lemma map_fst_storeRefresh {α : Type} (store : List (String × α))
    (t : String) (f : α → α) :
    (storeRefresh store t f).map Prod.fst = store.map Prod.fst := by
  induction store with
  | nil => rfl
  | cons p rest ih =>
    by_cases h : p.1 = t <;>
      simp [storeRefresh, h, ih] <;>
      simp [storeRefresh] at ih <;> exact ih

/-- Claim C6, confirmed.  For every refresh of an item, channel or
playlist: the refresh touches only the targeted document and never
removes any document from the store (the key set is unchanged for every
possible fresh pull), and when the upstream lookup returns no data the
targeted document is deactivated in place — it remains in the store with
its active flag set to false and all other fields untouched. -/
theorem claim6_no_delete (vstore : List (String × VideoDoc))
    (cstore : List (String × ChannelDoc))
    (pstore : List (String × PlaylistDoc)) (id : String)
    (vfresh : Option VideoDoc) (cfresh : Option ChannelDoc)
    (pfresh : Option PlaylistDoc) :
    (storeRefresh vstore id
        (fun d => reindexSingleVideoCall d vfresh)).map Prod.fst
      = vstore.map Prod.fst
    ∧ (storeRefresh cstore id
        (fun d => reindexSingleChannel d cfresh)).map Prod.fst
      = cstore.map Prod.fst
    ∧ (storeRefresh pstore id
        (fun d => reindexSinglePlaylist d pfresh)).map Prod.fst
      = pstore.map Prod.fst
    ∧ (storeRefresh vstore id
        (fun d => reindexSingleVideoCall d none)).lookup id
      = (vstore.lookup id).map deactivateVideo
    ∧ (storeRefresh cstore id
        (fun d => reindexSingleChannel d none)).lookup id
      = (cstore.lookup id).map deactivateChannel
    ∧ (storeRefresh pstore id
        (fun d => reindexSinglePlaylist d none)).lookup id
      = (pstore.lookup id).map deactivatePlaylist
    ∧ (∀ d : VideoDoc, (reindexSingleVideoCall d none).active = false)
    ∧ (∀ d : ChannelDoc, (reindexSingleChannel d none).channel_active = false)
    ∧ (∀ d : PlaylistDoc,
        (reindexSinglePlaylist d none).playlist_active = false) :=
  ⟨map_fst_storeRefresh _ _ _, map_fst_storeRefresh _ _ _,
   map_fst_storeRefresh _ _ _, lookup_storeRefresh _ _ _,
   lookup_storeRefresh _ _ _, lookup_storeRefresh _ _ _,
   fun _ => rfl, fun _ => rfl, fun _ => rfl⟩

/-- Claim C7, confirmed.  A comment refresh whose fresh pull yields no
comments (extractor returned nothing, or an empty list) leaves the stored
comment document unchanged; in general the refresh either leaves the
store unchanged or writes a document whose comment list is non-empty, so
a non-empty stored comment set is never replaced by an empty one. -/
theorem claim7_comments (activated : Bool) (yid : String) (now : Nat)
    (raw : Option (List RawComment)) (chan : Option String)
    (stored : Option CommentDoc) :
    (raw = none ∨ raw = some [] →
      reindexComments activated yid now raw chan stored = stored)
    ∧ (reindexComments activated yid now raw chan stored = stored
       ∨ ∃ doc, reindexComments activated yid now raw chan stored = some doc
           ∧ doc.comment_comments ≠ []) := by
  constructor
  · rintro (rfl | rfl) <;> cases activated <;>
      simp [reindexComments, buildCommentsFormat]
  · cases activated
    · left; simp [reindexComments]
    · match raw with
      | none => left; simp [reindexComments, buildCommentsFormat]
      | some [] => left; simp [reindexComments, buildCommentsFormat]
      | some (a :: t) =>
        right
        refine ⟨_, rfl, ?_⟩
        simp [reindexComments, buildCommentsFormat, formatComments]

/-- Witness for claim C7 at a concrete input: comments enabled, fresh
pull empty, non-empty stored document kept as is. -/
theorem claim7_comments_witness :
    ((none : Option (List RawComment)) = none ∨
      (none : Option (List RawComment)) = some [])
    ∧ reindexComments true "vid" 5 none (some "c1")
        (some sampleStoredComments) = some sampleStoredComments :=
  ⟨Or.inl rfl,
   (claim7_comments true "vid" 5 none (some "c1")
      (some sampleStoredComments)).1 (Or.inl rfl)⟩

/-- Claim C9, confirmed.  A progress query carrying a request id but no
entity type resolves its queue name to the literal "all", which is none
of the three per-type refresh queue names; the presence check therefore
runs against that unused queue and reports false whenever it is empty,
even for an id actually queued under the video refresh queue. -/
theorem claim9_progress (queues : RedisQueues) (id : String)
    (hall : queues "all" = [])
    (_hqueued : id ∈ queues "reindex:ta_video") :
    "all" ∉ REINDEX_QUEUES.map Prod.snd
    ∧ progressStateForId queues none id = some false := by
  refine ⟨by decide, ?_⟩
  simp [progressStateForId, getQueueName, inQueue, hall]

/-- Witness for claim C9 at a concrete Redis state. -/
theorem claim9_progress_witness :
    sampleQueues "all" = []
    ∧ "v1" ∈ sampleQueues "reindex:ta_video"
    ∧ progressStateForId sampleQueues none "v1" = some false := by
  have h1 : sampleQueues "all" = [] := by decide
  have h2 : "v1" ∈ sampleQueues "reindex:ta_video" := by decide
  exact ⟨h1, h2, (claim9_progress sampleQueues "v1" h1 h2).2⟩

/-- Helper: on an entry of one of the three known types the processing
step succeeds with the accumulated missing list. -/
lemma processEntry_valid (to_skip missing : List String) (e : UrlEntry)
    (h : e.type = "video" ∨ e.type = "channel" ∨ e.type = "playlist") :
    processEntry to_skip missing e = .ok (entryStep to_skip missing e) := by
  rcases h with h | h | h <;> simp [processEntry, entryStep, h]

/-- Claim C10, confirmed.  In a resolution pass over an ordered request
list, an entry whose type is not video, channel or playlist raises the
`ValueError` and aborts the remainder of the pass: the result is exactly
the missing list accumulated by the entries before it (their additions
are not rolled back) with the abort flag set, and the entries after it
are never processed. -/
theorem claim10_abort (to_skip missing : List String)
    (pre post : List UrlEntry) (bad : UrlEntry)
    (hpre : ∀ e ∈ pre,
      e.type = "video" ∨ e.type = "channel" ∨ e.type = "playlist")
    (hbad : ¬(bad.type = "video" ∨ bad.type = "channel"
              ∨ bad.type = "playlist")) :
    parseUrlLoop to_skip (pre ++ bad :: post) missing
      = (pre.foldl (entryStep to_skip) missing, true) := by
  induction pre generalizing missing with
  | nil =>
    push_neg at hbad
    obtain ⟨h1, h2, h3⟩ := hbad
    simp [parseUrlLoop, processEntry, h1, h2, h3]
  | cons e pre ih =>
    have he := hpre e (List.mem_cons_self _ _)
    have hrest : ∀ x ∈ pre,
        x.type = "video" ∨ x.type = "channel" ∨ x.type = "playlist" :=
      fun x hx => hpre x (List.mem_cons_of_mem _ hx)
    have hstep : parseUrlLoop to_skip ((e :: pre) ++ bad :: post) missing
        = parseUrlLoop to_skip (pre ++ bad :: post)
            (entryStep to_skip missing e) := by
      simp [parseUrlLoop, processEntry_valid to_skip missing e he]
    rw [hstep, ih _ hrest]
    simp

/-- Witness for claim C10 at a concrete request list: one valid video
entry, then an entry of unknown type, then another valid entry that is
never reached. -/
theorem claim10_abort_witness :
    (∀ e ∈ [({ type := "video", url := "v1", resolved := [] } : UrlEntry)],
      e.type = "video" ∨ e.type = "channel" ∨ e.type = "playlist")
    ∧ ¬(({ type := "bogus", url := "x", resolved := [] } : UrlEntry).type
          = "video"
        ∨ ({ type := "bogus", url := "x", resolved := [] } : UrlEntry).type
          = "channel"
        ∨ ({ type := "bogus", url := "x", resolved := [] } : UrlEntry).type
          = "playlist")
    ∧ parseUrlLoop []
        ([{ type := "video", url := "v1", resolved := [] }]
          ++ ({ type := "bogus", url := "x", resolved := [] } : UrlEntry)
          :: [{ type := "video", url := "v2", resolved := [] }]) []
      = (["v1"], true) := by
  have hpre : ∀ e ∈ [({ type := "video", url := "v1", resolved := [] } :
      UrlEntry)],
      e.type = "video" ∨ e.type = "channel" ∨ e.type = "playlist" := by
    decide
  have hbad : ¬(({ type := "bogus", url := "x", resolved := [] } :
        UrlEntry).type = "video"
      ∨ ({ type := "bogus", url := "x", resolved := [] } : UrlEntry).type
        = "channel"
      ∨ ({ type := "bogus", url := "x", resolved := [] } : UrlEntry).type
        = "playlist") := by
    decide
  have h := claim10_abort [] []
    [{ type := "video", url := "v1", resolved := [] }]
    [{ type := "video", url := "v2", resolved := [] }]
    { type := "bogus", url := "x", resolved := [] } hpre hbad
  rw [h]
  exact ⟨hpre, hbad, by decide⟩

end TA
